import Mathlib

/-!
Shallow embedding of the Slugline screenplay editor core
(`src/types/screenplay.ts`, `src/stores/documentStore.ts`, the editor
page-break estimator, `src/utils/exportPdf.ts`, `src/utils/exportFdx.ts`,
`src/utils/importFdx.ts`), together with theorems settling the claims
about it.

Modelling conventions:
* JS strings are modelled as Lean `String`/`List Char`; `trim`,
  `toUpperCase`, `toLowerCase` are modelled on the ASCII range (every
  string the claims mention is ASCII).  `String.length` counts
  characters where JS counts UTF-16 units; they agree on the BMP.
* The opaque unique ids produced by `generateId()` are modelled as a
  `Nat` counter threaded through the store state.  The id freshly
  generated for each rebuilt `Scene` is omitted from the `Scene`
  structure, since no observable behaviour depends on it.
* `Date` timestamps (`createdAt`/`updatedAt`, `lastSavedAt`) are
  omitted: no claim mentions them.
* Regex operations from the source are expanded to their concrete
  semantics on the character list (leftmost match, alternation order,
  greedy `\s*`, `.` excluding line terminators), as noted at each
  definition.
-/

namespace Slugline

/-- JS `\s` / `trim()` whitespace, restricted to the ASCII range. -/
def isJsSpace (c : Char) : Bool :=
  c = ' ' || c = '\t' || c = '\n' || c = '\r' || c = '\x0b' || c = '\x0c'

/-- JS line terminators: the characters that `.` does not match in a regex. -/
def isLineTerminator (c : Char) : Bool :=
  c = '\n' || c = '\r' || c = '\u2028' || c = '\u2029'

/-- JS `String.prototype.trim()` on a character list. -/
def jsTrim (cs : List Char) : List Char :=
  ((cs.dropWhile isJsSpace).reverse.dropWhile isJsSpace).reverse

/-- JS `String.prototype.toUpperCase()`, ASCII range. -/
def jsToUpper (cs : List Char) : List Char := cs.map Char.toUpper

/-- JS `String.prototype.toLowerCase()`, ASCII range. -/
def jsToLower (cs : List Char) : List Char := cs.map Char.toLower

/-- JS truthiness of a trimmed string: `content.trim()` is truthy
iff the trim result is nonempty. -/
def isBlank (s : String) : Bool := (jsTrim s.data).isEmpty

/-- Whether `pre` is an initial segment of `cs` (JS `startsWith`). -/
def startsWithChars : List Char → List Char → Bool
  | [], _ => true
  | _ :: _, [] => false
  | p :: ps, c :: cs => p = c && startsWithChars ps cs

/-- JS `String.prototype.includes` on character lists. -/
def containsChars (hay : List Char) (needle : List Char) : Bool :=
  match hay with
  | [] => needle.isEmpty
  | _ :: rest => startsWithChars needle hay || containsChars rest needle

/- ===== Data model (src/types/screenplay.ts) ===== -/

/-- The six screenplay element kinds of `ElementType`. -/
inductive ElementType where
  | sceneHeading
  | action
  | character
  | dialogue
  | parenthetical
  | transition
deriving DecidableEq, BEq, Repr

/-- The TS string literal for each element kind (the tagged-union tags
such as `'scene-heading'`), as passed to `exportPdf`'s helpers. -/
def elementTypeName : ElementType → String
  | .sceneHeading => "scene-heading"
  | .action => "action"
  | .character => "character"
  | .dialogue => "dialogue"
  | .parenthetical => "parenthetical"
  | .transition => "transition"

/-- Tab-cycling order `ELEMENT_CYCLE` (parenthetical is outside the cycle). -/
def ELEMENT_CYCLE : List ElementType :=
  [.sceneHeading, .action, .character, .dialogue, .transition]

/-- A `ScriptElement`.  The optional `formatting` range list is omitted:
no claim involves inline formatting ranges. -/
structure ScriptElement where
  id : Nat
  type : ElementType
  content : String
deriving DecidableEq, Repr

/-- CharacterInfo derived-index entry. -/
structure CharacterInfo where
  name : String
  lineCount : Nat
  firstAppearance : Nat
deriving DecidableEq, Repr

/-- LocationInfo derived-index entry. -/
structure LocationInfo where
  name : String
  occurrenceCount : Nat
  isInterior : Bool
deriving DecidableEq, Repr

/-- A `Scene` projection.  The scene's own freshly generated opaque `id`
is omitted (see module conventions); `elementId` back-references the
owning scene-heading element. -/
structure Scene where
  elementId : Nat
  sceneNumber : Nat
  heading : String
  location : String
  timeOfDay : String
  isInterior : Bool
deriving DecidableEq, Repr

/-- Title page data (industry standard format).  Optional strings model
the optional TS fields; `titleFontSize` is omitted (PDF layout only). -/
structure TitlePage where
  title : String
  writtenBy : String
  author : String
  basedOn : Option String := none
  contactInfo : Option String := none
  draftDate : Option String := none
  copyright : Option String := none
deriving DecidableEq, Repr

/-- The `Screenplay` aggregate root (timestamps omitted). -/
structure Screenplay where
  id : Nat
  title : String
  author : String
  titlePage : Option TitlePage := none
  elements : List ScriptElement
  characters : List CharacterInfo
  locations : List LocationInfo
deriving DecidableEq, Repr

/-- Lines-per-page constant `FORMATTING.LINES_PER_PAGE`. -/
def LINES_PER_PAGE : Nat := 55

/-- Create a new empty element (`createEmptyElement`); the fresh
`generateId()` is passed in as `id`. -/
def createEmptyElement (type : ElementType) (id : Nat) : ScriptElement :=
  ⟨id, type, ""⟩

/-- Create a new empty screenplay (`createEmptyScreenplay`): one empty
scene-heading element.  `spId`/`elId` stand for the two `generateId()`
calls. -/
def createEmptyScreenplay (title : String) (author : String)
    (spId : Nat) (elId : Nat) : Screenplay :=
  { id := spId
    title := title
    author := author
    titlePage := none
    elements := [createEmptyElement .sceneHeading elId]
    characters := []
    locations := [] }

/- ===== Scene-heading parser (parseSceneHeading) ===== -/

/-- Result record of `parseSceneHeading`. -/
structure ParsedHeading where
  isInterior : Bool
  location : String
  timeOfDay : String
deriving DecidableEq, Repr

/-- The time-of-day vocabulary, in the alternation order of the source
regex `(DAY|NIGHT|MORNING|EVENING|DAWN|DUSK|LATER|CONTINUOUS|SAME|MOMENTS LATER)`. -/
def TIME_WORDS : List String :=
  ["DAY", "NIGHT", "MORNING", "EVENING", "DAWN", "DUSK", "LATER",
   "CONTINUOUS", "SAME", "MOMENTS LATER"]

/-- The INT/EXT prefixes, in the alternation order of the source regex
`^(INT\.?\/EXT\.|I\.?\/E\.|INT\.|EXT\.)\s*` with each optional-dot
alternative expanded (longer first, as the regex engine tries them). -/
def SCENE_PREFIXES : List String :=
  ["INT./EXT.", "INT/EXT.", "I./E.", "I/E.", "INT.", "EXT."]

/-- Hyphen-family separator class `[-–—]` (ASCII hyphen, en dash, em dash). -/
def isHyphenFamily (c : Char) : Bool :=
  c = '-' || c = '\u2013' || c = '\u2014'

/-- Strip the leading INT/EXT prefix and the following `\s*`.  The `\s*`
is inside the replaced regex match, so it is consumed only when one of
the alternatives matched. -/
def stripIntExt (cs : List Char) : List Char :=
  match SCENE_PREFIXES.find? (fun p => startsWithChars p.data cs) with
  | some p => (cs.drop p.length).dropWhile isJsSpace
  | none => cs

/-- First vocabulary word (in alternation order) that starts `cs` and is
followed by no line terminator — the `(WORD).*$` tail of the regex,
where `.` excludes line terminators and `$` is the end of the input. -/
def vocabAt (cs : List Char) : Option String :=
  TIME_WORDS.find? fun w =>
    startsWithChars w.data cs && (cs.drop w.length).all (fun c => !isLineTerminator c)

/-- Leftmost match of `\s*[-–—]\s*(WORD).*$` over the remainder, returned
as (characters before the separator, matched word).  A match anchored
before a hyphen exists iff, after skipping the (greedy, maximal) `\s*`
run following the hyphen, a vocabulary word matches with no line
terminator after it; the leftmost regex match uses the first such
hyphen.  The `\s*` preceding the hyphen is irrelevant because the
source trims `remaining.substring(0, match.index)`. -/
def timeSplit : List Char → Option (List Char × String)
  | [] => none
  | c :: rest =>
    if isHyphenFamily c then
      match vocabAt (rest.dropWhile isJsSpace) with
      | some w => some ([], w)
      | none =>
        match timeSplit rest with
        | some (pre, w) => some (c :: pre, w)
        | none => none
    else
      match timeSplit rest with
      | some (pre, w) => some (c :: pre, w)
      | none => none

/-- The scene-heading parser `parseSceneHeading` of
src/types/screenplay.ts: trim + upper-case, `isInterior` =
starts-with-"INT", strip the INT/EXT prefix, then scan for the
time-of-day suffix (defaulting to "DAY"). -/
def parseSceneHeading (heading : String) : ParsedHeading :=
  let trimmed := jsToUpper (jsTrim heading.data)
  let isInterior := startsWithChars "INT".data trimmed
  let remaining := stripIntExt trimmed
  match timeSplit remaining with
  | some (pre, w) => ⟨isInterior, String.mk (jsTrim pre), w⟩
  | none => ⟨isInterior, String.mk remaining, "DAY"⟩

/- ===== Derived-index engine (the recalculate passes, documentStore.ts) ===== -/

/-- Fold over a list, applying `f` only at elements satisfying `qual`.
Both `recalculateScenes` and `recalculateLocations` are `forEach`
passes of this form. -/
def foldSkip {β : Type} (qual : ScriptElement → Bool)
    (f : β → ScriptElement → β) (init : β) : List ScriptElement → β
  | [] => init
  | e :: rest => foldSkip qual f (if qual e then f init e else init) rest

/-- The qualifying test of the Scene/Location passes: a scene-heading
element whose content is non-blank (`element.content.trim()` truthy). -/
def qualHeading (e : ScriptElement) : Bool :=
  decide (e.type = .sceneHeading) && !(isBlank e.content)

/-- Build one Scene entry from a qualifying scene-heading element. -/
def mkScene (sceneNumber : Nat) (e : ScriptElement) : Scene :=
  let p := parseSceneHeading e.content
  ⟨e.id, sceneNumber, e.content, p.location, p.timeOfDay, p.isInterior⟩

/-- Pure rebuild underlying `recalculateScenes`: one Scene per
non-blank scene-heading element, numbered from 1 in document order. -/
def buildScenes (elements : List ScriptElement) : List Scene :=
  (foldSkip qualHeading
    (fun acc e => (acc.1 ++ [mkScene acc.2 e], acc.2 + 1)) ([], 1) elements).1

/-- Increment-or-insert step of `recalculateLocations`: bump the
occurrence count of the entry keyed by `name`, or append a new entry
(JS `Map` preserves insertion order). -/
def addLocationOcc (m : List LocationInfo) (name : String)
    (isInterior : Bool) : List LocationInfo :=
  if m.any (fun li => li.name = name) then
    m.map fun li =>
      if li.name = name then { li with occurrenceCount := li.occurrenceCount + 1 }
      else li
  else m ++ [⟨name, 1, isInterior⟩]

/-- Pure rebuild underlying `recalculateLocations`. -/
def buildLocations (elements : List ScriptElement) : List LocationInfo :=
  foldSkip qualHeading
    (fun m e =>
      let p := parseSceneHeading e.content
      if p.location ≠ "" then addLocationOcc m p.location p.isInterior else m)
    [] elements

/-- Character-name normalization of `recalculateCharacters`:
`content.trim().toUpperCase()` followed by
`.replace(/\s*\(.*?\)\s*$/, '').trim()`.  The regex strips a trailing
parenthetical voice tag such as `(V.O.)`. -/
def parenTail : List Char → Bool
  | [] => false
  | c :: rest =>
    if c = ')' then rest.all isJsSpace || parenTail rest
    else if isLineTerminator c then false
    else parenTail rest

/-- Whether the whole list matches `\s*\(.*?\)\s*$`: a maximal
whitespace run, an opening parenthesis, any non-line-terminator
characters up to a closing parenthesis followed only by whitespace. -/
def matchesParenSuffix (cs : List Char) : Bool :=
  match cs.dropWhile isJsSpace with
  | '(' :: rest => parenTail rest
  | _ => false

/-- Remove the leftmost (hence the JS `replace` with no `g` flag) match
of `\s*\(.*?\)\s*$`; the match always extends to the end of the string,
so the result is the prefix before the match start. -/
def stripTrailingParen : List Char → List Char
  | [] => []
  | c :: rest =>
    if matchesParenSuffix (c :: rest) then []
    else c :: stripTrailingParen rest

/-- The normalized map key used by `recalculateCharacters`. -/
def charKeyOf (content : String) : String :=
  String.mk (jsTrim (stripTrailingParen (jsToUpper (jsTrim content.data))))

/-- Insert step of the character pass: `if (!characterMap.has(cleanName))`
add an entry with line count 0 and first appearance = current index. -/
def addCharacterEntry (m : List CharacterInfo) (name : String)
    (index : Nat) : List CharacterInfo :=
  if m.any (fun c => c.name = name) then m else m ++ [⟨name, 0, index⟩]

/-- Attribution step: `characterMap.get(charName)` followed by
`char.lineCount++` — a no-op when the name is not in the map. -/
def bumpLineCount (m : List CharacterInfo) (name : String) : List CharacterInfo :=
  m.map fun c =>
    if c.name = name then { c with lineCount := c.lineCount + 1 } else c

/-- Backward scan of the character pass over the elements preceding a
dialogue element (most recent first): the first character element wins;
an intervening dialogue or scene-heading element stops the scan. -/
def scanBackForCharacter : List ScriptElement → Option String
  | [] => none
  | prev :: rest =>
    if prev.type = .character then some (charKeyOf prev.content)
    else if prev.type = .dialogue ∨ prev.type = .sceneHeading then none
    else scanBackForCharacter rest

/-- One `forEach` step of `recalculateCharacters` at position `index`. -/
def charStep (elements : List ScriptElement) (m : List CharacterInfo)
    (index : Nat) (element : ScriptElement) : List CharacterInfo :=
  let m :=
    if element.type = .character ∧ ¬ isBlank element.content then
      addCharacterEntry m (charKeyOf element.content) index
    else m
  if element.type = .dialogue then
    match scanBackForCharacter (elements.take index).reverse with
    | some name => bumpLineCount m name
    | none => m
  else m

/-- Pure rebuild underlying `recalculateCharacters`. -/
def buildCharacters (elements : List ScriptElement) : List CharacterInfo :=
  elements.enum.foldl (fun m p => charStep elements m p.1 p.2) []

/- ===== Document store state and mutation operations ===== -/

/-- The store state (`DocumentState` of documentStore.ts), restricted
to the fields the core operations read or write; `nextId` models the
`generateId()` counter. -/
structure DocumentState where
  screenplay : Screenplay
  currentElementIndex : Nat
  cursorPosition : Nat
  isDirty : Bool
  scenes : List Scene
  nextId : Nat
deriving DecidableEq, Repr

/-- The store's initial state: `createEmptyScreenplay()` with ids 0
(screenplay) and 1 (element), empty derived collections. -/
def initialState : DocumentState :=
  { screenplay := createEmptyScreenplay "Untitled" "" 0 1
    currentElementIndex := 0
    cursorPosition := 0
    isDirty := false
    scenes := []
    nextId := 2 }

/-- Store action `recalculateScenes`. -/
def recalculateScenes (st : DocumentState) : DocumentState :=
  { st with scenes := buildScenes st.screenplay.elements }

/-- Store action `recalculateCharacters`. -/
def recalculateCharacters (st : DocumentState) : DocumentState :=
  { st with screenplay :=
      { st.screenplay with characters := buildCharacters st.screenplay.elements } }

/-- Store action `recalculateLocations`. -/
def recalculateLocations (st : DocumentState) : DocumentState :=
  { st with screenplay :=
      { st.screenplay with locations := buildLocations st.screenplay.elements } }

/-- Store action `setScreenplay`: replace the document, mark dirty,
rebuild all three derived collections. -/
def setScreenplay (st : DocumentState) (screenplay : Screenplay) : DocumentState :=
  recalculateLocations (recalculateCharacters (recalculateScenes
    { st with screenplay := screenplay, isDirty := true }))

/-- Store action `updateElement` (the spec's `updateContent`):
out-of-bounds indices are a silent no-op; a scene-heading element
triggers the Scenes and Locations rebuilds, a character element the
Characters rebuild. -/
def updateElement (st : DocumentState) (index : Nat) (content : String) :
    DocumentState :=
  match st.screenplay.elements[index]? with
  | none => st
  | some old =>
    let st' : DocumentState :=
      { st with
        screenplay :=
          { st.screenplay with
            elements := st.screenplay.elements.set index { old with content := content } }
        isDirty := true }
    if old.type = .sceneHeading then recalculateLocations (recalculateScenes st')
    else if old.type = .character then recalculateCharacters st'
    else st'

/-- Store action `updateElementType` (the spec's `updateType`). -/
def updateElementType (st : DocumentState) (index : Nat) (type : ElementType) :
    DocumentState :=
  match st.screenplay.elements[index]? with
  | none => st
  | some old =>
    let st' : DocumentState :=
      { st with
        screenplay :=
          { st.screenplay with
            elements := st.screenplay.elements.set index { old with type := type } }
        isDirty := true }
    let st' :=
      if old.type = .sceneHeading ∨ type = .sceneHeading then
        recalculateLocations (recalculateScenes st')
      else st'
    if old.type = .character ∨ type = .character then recalculateCharacters st'
    else st'

/-- JS `Array.prototype.splice(i, 0, e)`: insert at position `i`,
clamped to the array length. -/
def spliceInsert {α : Type} (l : List α) (i : Nat) (a : α) : List α :=
  l.take i ++ a :: l.drop i

/-- Store action `insertElementAfter` (the spec's `insertAfter`): a new
empty element of the given kind right after `index`; the new position
becomes the focus; only an inserted scene-heading triggers a rebuild
(of Scenes alone). -/
def insertElementAfter (st : DocumentState) (index : Nat) (type : ElementType) :
    DocumentState :=
  let newElement := createEmptyElement type st.nextId
  let st' : DocumentState :=
    { st with
      screenplay :=
        { st.screenplay with
          elements := spliceInsert st.screenplay.elements (index + 1) newElement }
      currentElementIndex := index + 1
      cursorPosition := 0
      isDirty := true
      nextId := st.nextId + 1 }
  if type = .sceneHeading then recalculateScenes st' else st'

/-- Store action `deleteElement` (the spec's `delete`): refuses on the
sole remaining element, silently ignores out-of-bounds indices, and
adjusts the focus index exactly as the source does. -/
def deleteElement (st : DocumentState) (index : Nat) : DocumentState :=
  if st.screenplay.elements.length ≤ 1 then st
  else
    match st.screenplay.elements[index]? with
    | none => st
    | some deleted =>
      let elements := st.screenplay.elements.eraseIdx index
      let newIndex :=
        if st.currentElementIndex ≥ elements.length then elements.length - 1
        else if st.currentElementIndex > index then st.currentElementIndex - 1
        else st.currentElementIndex
      let st' : DocumentState :=
        { st with
          screenplay := { st.screenplay with elements := elements }
          currentElementIndex := newIndex
          isDirty := true }
      if deleted.type = .sceneHeading then recalculateLocations (recalculateScenes st')
      else if deleted.type = .character then recalculateCharacters st'
      else st'

/-- Store action `setCurrentElement`: focus moves only to an in-bounds
index. -/
def setCurrentElement (st : DocumentState) (index : Nat) : DocumentState :=
  if index < st.screenplay.elements.length then
    { st with currentElementIndex := index }
  else st

/-- Store action `cycleElementType` (the spec's `cycleType`).  The Nat
expression `(i + length - 1) % length` equals the source's JS integer
`(i - 1 + length) % length`. -/
def cycleElementType (st : DocumentState) (index : Nat) (reverse : Bool) :
    DocumentState :=
  match st.screenplay.elements[index]? with
  | none => st
  | some element =>
    match ELEMENT_CYCLE.findIdx? (fun t => t == element.type) with
    | none => updateElementType st index .dialogue
    | some currentTypeIndex =>
      if reverse then
        if element.type = .dialogue then updateElementType st index .parenthetical
        else
          let newIndex :=
            (currentTypeIndex + ELEMENT_CYCLE.length - 1) % ELEMENT_CYCLE.length
          updateElementType st index (ELEMENT_CYCLE.getD newIndex .sceneHeading)
      else
        let newIndex := (currentTypeIndex + 1) % ELEMENT_CYCLE.length
        updateElementType st index (ELEMENT_CYCLE.getD newIndex .sceneHeading)

/-- The document-model mutation operations of spec §4.2, as one type so
that sequences of mutations can be quantified over. -/
inductive Mutation where
  | updateContent (index : Nat) (content : String)
  | updateType (index : Nat) (type : ElementType)
  | insertAfter (index : Nat) (type : ElementType)
  | deleteAt (index : Nat)
  | cycleType (index : Nat) (reverse : Bool)
deriving DecidableEq, Repr

/-- Dispatch a mutation to the corresponding store action. -/
def applyMutation (st : DocumentState) : Mutation → DocumentState
  | .updateContent index content => updateElement st index content
  | .updateType index type => updateElementType st index type
  | .insertAfter index type => insertElementAfter st index type
  | .deleteAt index => deleteElement st index
  | .cycleType index reverse => cycleElementType st index reverse

/- ===== Coarse page-break estimator (Editor component, pageBreaks) ===== -/

/-- Content line estimate `Math.max(1, Math.ceil(content.length / 60))`. -/
def contentLinesOf (content : String) : Nat :=
  max 1 ((content.length + 59) / 60)

/-- Estimated occupied lines for one element: content lines plus the
spacing bonuses (+1 for scene-heading or action, +1 for character),
exactly as the two `if` statements of the source apply them. -/
def elementLinesOf (e : ScriptElement) : Nat :=
  let contentLines := contentLinesOf e.content
  let a := if e.type = .sceneHeading ∨ e.type = .action then contentLines + 1
           else contentLines
  if e.type = .character then a + 1 else a

/-- The editor's `pageBreaks` computation: accumulate estimated lines;
when the running count reaches `LINES_PER_PAGE`, record the element's
index and reset the count to that element's own estimate. -/
def pageBreaks (elements : List ScriptElement) : List Nat :=
  (elements.enum.foldl
    (fun acc p =>
      let elementLines := elementLinesOf p.2
      let lineCount := acc.2 + elementLines
      if lineCount ≥ LINES_PER_PAGE then (acc.1 ++ [p.1], elementLines)
      else (acc.1, lineCount))
    ([], 0)).1

/-- Per-element line estimate as claim C6 words it, with the amendment
that the content term is floored at one line (`max 1 ...`), written as
a plain sum for comparison with `elementLinesOf`. -/
def elementLinesAmended (e : ScriptElement) : Nat :=
  max 1 ((e.content.length + 59) / 60)
    + (if e.type = .sceneHeading ∨ e.type = .action then 1 else 0)
    + (if e.type = .character then 1 else 0)

/-- Per-element line estimate exactly as claim C6 states it
(`ceil(len(content) / 60)` plus the bonuses, with no floor). -/
def elementLinesClaimed (e : ScriptElement) : Nat :=
  (e.content.length + 59) / 60
    + (if e.type = .sceneHeading ∨ e.type = .action then 1 else 0)
    + (if e.type = .character then 1 else 0)

/-- The page-break sequence as the claim describes the algorithm
(running total, break when it reaches the threshold, reset to the
current element's own estimate), parameterized by the per-element
estimate so the claimed and the amended formula can both be plugged in. -/
def breaksFrom (lines : ScriptElement → Nat) (k : Nat) (running : Nat) :
    List ScriptElement → List Nat
  | [] => []
  | e :: rest =>
    let total := running + lines e
    if total ≥ LINES_PER_PAGE then k :: breaksFrom lines (k + 1) (lines e) rest
    else breaksFrom lines (k + 1) total rest

/-- Claim-C6 description with the amended (floored) per-element formula. -/
def pageBreaksAmended (elements : List ScriptElement) : List Nat :=
  breaksFrom elementLinesAmended 0 0 elements

/-- Claim-C6 description with the formula exactly as claimed (no floor). -/
def pageBreaksClaimed (elements : List ScriptElement) : List Nat :=
  breaksFrom elementLinesClaimed 0 0 elements

/-- Twenty-eight empty action elements: each costs 2 estimated lines in
the source (floored content estimate 1, plus 1 spacing bonus) but only
1 under the claim's un-floored formula. -/
def emptyActions : List ScriptElement :=
  List.replicate 28 ⟨0, .action, ""⟩

/- ===== Export renderer spacing (exportPdf.ts, getSpaceBefore) ===== -/

/-- Line height constant of exportPdf.ts (12pt font, 12pt line). -/
def LINE_HEIGHT : Nat := 12

/-- The export renderer's `getSpaceBefore(type, isFirst)`: no lead for
the first element on a page; one blank line (`LINE_HEIGHT`) before
scene-heading, action, character and transition elements; nothing
before the others.  The `type` parameter is the TS union's string tag,
as in the source. -/
def getSpaceBefore (type : String) (isFirst : Bool) : Nat :=
  if isFirst then 0
  else if type = "scene-heading" ∨ type = "action" ∨ type = "character"
        ∨ type = "transition" then LINE_HEIGHT
  else 0

/- ===== Claim-level transition function for cycleType (claim C4) ===== -/

/-- The element-kind transition claimed for `cycleType`: the fixed
five-kind cycle forward/backward, with the dialogue—parenthetical
detour edges. -/
def cycleSpec (t : ElementType) (reverse : Bool) : ElementType :=
  match t, reverse with
  | .parenthetical, _ => .dialogue
  | .dialogue, true => .parenthetical
  | .sceneHeading, false => .action
  | .action, false => .character
  | .character, false => .dialogue
  | .dialogue, false => .transition
  | .transition, false => .sceneHeading
  | .sceneHeading, true => .transition
  | .action, true => .sceneHeading
  | .character, true => .action
  | .transition, true => .dialogue

/- ===== Derived-state consistency (claim C1) ===== -/

/-- The stored derived collections agree with a from-scratch rebuild of
the current element sequence — for Scenes and Locations.  (Characters
is deliberately absent: the code does not maintain it, see the C1
counterexample.) -/
def derivedConsistent (st : DocumentState) : Prop :=
  st.scenes = buildScenes st.screenplay.elements ∧
  st.screenplay.locations = buildLocations st.screenplay.elements

instance (st : DocumentState) : Decidable (derivedConsistent st) :=
  inferInstanceAs (Decidable
    (st.scenes = buildScenes st.screenplay.elements ∧
     st.screenplay.locations = buildLocations st.screenplay.elements))

/-- A reachable state whose stored Characters collection is stale:
retype the initial element to character, give it content "ALICE", then
insert a dialogue element after it.  The insertion triggers no
Characters rebuild. -/
def staleCharactersState : DocumentState :=
  insertElementAfter
    (updateElement (updateElementType initialState 0 .character) 0 "ALICE")
    0 .dialogue

/-- Reachable state used for the C8 counterexample: three elements with
the focus on the middle one. -/
def focusMidState : DocumentState :=
  setCurrentElement
    (insertElementAfter (insertElementAfter initialState 0 .action) 1 .action) 1

/- ===== XML document model (the DOM produced by DOMParser) ===== -/

/-- An XML node: an element with a tag name, attributes and children, or
a text node.  This models the DOM tree the browser's `DOMParser`
produces for well-formed input. -/
inductive XmlNode where
  | elem (tag : String) (attrs : List (String × String)) (children : List XmlNode)
  | text (s : String)
deriving Repr

/-- XML whitespace (space, tab, carriage return, line feed). -/
def isXmlSpace (c : Char) : Bool :=
  c = ' ' || c = '\t' || c = '\n' || c = '\r'

/-- Characters accepted in tag and attribute names (ASCII name subset). -/
def isNameChar (c : Char) : Bool :=
  c.isAlphanum || c = '_' || c = '-' || c = '.' || c = ':'

/-- Decode the five predefined XML character entities; any other use of
an ampersand (or a stray angle bracket) makes the document ill-formed. -/
def decodeEntities : List Char → Option (List Char)
  | [] => some []
  | '&' :: 'a' :: 'm' :: 'p' :: ';' :: rest =>
      (decodeEntities rest).map (fun t => '&' :: t)
  | '&' :: 'l' :: 't' :: ';' :: rest =>
      (decodeEntities rest).map (fun t => '<' :: t)
  | '&' :: 'g' :: 't' :: ';' :: rest =>
      (decodeEntities rest).map (fun t => '>' :: t)
  | '&' :: 'q' :: 'u' :: 'o' :: 't' :: ';' :: rest =>
      (decodeEntities rest).map (fun t => '"' :: t)
  | '&' :: 'a' :: 'p' :: 'o' :: 's' :: ';' :: rest =>
      (decodeEntities rest).map (fun t => Char.ofNat 39 :: t)
  | '&' :: _ => none
  | c :: rest => (decodeEntities rest).map (fun t => c :: t)

/-- Parse a run of `name="value"` attributes, up to `>` or `/>`. -/
def parseAttrs : Nat → List Char → Option (List (String × String) × List Char)
  | 0, _ => none
  | fuel + 1, cs =>
    let cs := cs.dropWhile isXmlSpace
    match cs with
    | [] => none
    | '>' :: _ => some ([], cs)
    | '/' :: _ => some ([], cs)
    | _ =>
      let (nm, cs1) := cs.span isNameChar
      if nm.isEmpty then none
      else
        match cs1 with
        | '=' :: '"' :: cs2 =>
          let (raw, cs3) := cs2.span (fun c => c ≠ '"')
          match cs3 with
          | '"' :: cs4 =>
            match decodeEntities raw with
            | some v =>
              match parseAttrs fuel cs4 with
              | some (rest, cs5) => some ((String.mk nm, String.mk v) :: rest, cs5)
              | none => none
            | none => none
          | _ => none
        | _ => none

mutual

/-- Parse one element starting at `<`.  Returns the node and the rest. -/
def parseNode : Nat → List Char → Option (XmlNode × List Char)
  | 0, _ => none
  | fuel + 1, cs =>
    match cs with
    | '<' :: cs1 =>
      let (nm, cs2) := cs1.span isNameChar
      if nm.isEmpty then none
      else
        match parseAttrs fuel cs2 with
        | none => none
        | some (attrs, cs3) =>
          match cs3 with
          | '/' :: '>' :: cs4 => some (.elem (String.mk nm) attrs [], cs4)
          | '>' :: cs4 =>
            match parseChildren fuel cs4 with
            | none => none
            | some (children, cs5) =>
              match cs5 with
              | '<' :: '/' :: cs6 =>
                let (nm2, cs7) := cs6.span isNameChar
                if nm2 = nm then
                  match cs7.dropWhile isXmlSpace with
                  | '>' :: cs8 => some (.elem (String.mk nm) attrs children, cs8)
                  | _ => none
                else none
              | _ => none
          | _ => none
    | _ => none

/-- Parse a sequence of child nodes, stopping before a closing tag. -/
def parseChildren : Nat → List Char → Option (List XmlNode × List Char)
  | 0, _ => none
  | fuel + 1, cs =>
    match cs with
    | [] => some ([], [])
    | '<' :: '/' :: _ => some ([], cs)
    | '<' :: '!' :: _ => none
    | '<' :: '?' :: _ => none
    | '<' :: _ =>
      match parseNode fuel cs with
      | none => none
      | some (node, cs1) =>
        match parseChildren fuel cs1 with
        | none => none
        | some (nodes, cs2) => some (node :: nodes, cs2)
    | _ =>
      let (raw, cs1) := cs.span (fun c => c ≠ '<')
      match decodeEntities raw with
      | none => none
      | some t =>
        match parseChildren fuel cs1 with
        | none => none
        | some (nodes, cs2) => some (.text (String.mk t) :: nodes, cs2)

end

/-- Skip an `<?xml ... ?>` declaration if present. -/
def dropToDeclEnd : List Char → Option (List Char)
  | [] => none
  | '?' :: '>' :: rest => some rest
  | _ :: rest => dropToDeclEnd rest

/-- Skip the optional XML declaration at the start of the document. -/
def skipXmlDecl (cs : List Char) : Option (List Char) :=
  match cs with
  | '<' :: '?' :: rest => dropToDeclEnd rest
  | _ => some cs

/-- The model of `DOMParser.parseFromString(s, 'application/xml')`:
`some root` for well-formed input, `none` when the parser would produce
a `parsererror` document. -/
def xmlParse (s : String) : Option XmlNode :=
  match skipXmlDecl (s.data.dropWhile isXmlSpace) with
  | none => none
  | some cs1 =>
    let cs2 := cs1.dropWhile isXmlSpace
    match parseNode (2 * cs2.length + 2) cs2 with
    | some (root, rest) =>
      if (rest.dropWhile isXmlSpace).isEmpty then some root else none
    | none => none

/- ===== DOM query helpers used by importFdx.ts ===== -/

/-- Children of a node (empty for text nodes). -/
def childrenOf : XmlNode → List XmlNode
  | .elem _ _ children => children
  | .text _ => []

/-- Whether a node is an element with the given tag name. -/
def isElemNamed (name : String) : XmlNode → Bool
  | .elem tag _ _ => tag = name
  | .text _ => false

mutual

/-- Document-order (pre-order) traversal including the node itself. -/
def preorderNode : XmlNode → List XmlNode
  | .text s => [.text s]
  | .elem tag attrs children => .elem tag attrs children :: preorderList children

/-- Document-order traversal of a node list. -/
def preorderList : List XmlNode → List XmlNode
  | [] => []
  | n :: rest => preorderNode n ++ preorderList rest

end

/-- Strict descendants of a node, in document order. -/
def descendantsOf (n : XmlNode) : List XmlNode := preorderList (childrenOf n)

/-- The model of `doc.querySelector(name)` for a single tag-name
selector: the first matching element in document order (the root
itself included, as for a document node). -/
def querySelector (doc : XmlNode) (name : String) : Option XmlNode :=
  (preorderNode doc).find? (isElemNamed name)

/-- The model of `el.querySelectorAll(name)` on an element: matching
strict descendants in document order. -/
def querySelectorAll (el : XmlNode) (name : String) : List XmlNode :=
  (descendantsOf el).filter (isElemNamed name)

/-- The model of `el.querySelectorAll('A B')` (descendant combinator):
descendants named `b` of descendants named `a`. -/
def querySelectorAllDesc (el : XmlNode) (a b : String) : List XmlNode :=
  ((descendantsOf el).filter (isElemNamed a)).flatMap
    (fun n => (descendantsOf n).filter (isElemNamed b))

/-- The model of `el.querySelectorAll(':scope > name')`: direct children. -/
def directChildrenNamed (el : XmlNode) (name : String) : List XmlNode :=
  (childrenOf el).filter (isElemNamed name)

mutual

/-- The DOM `textContent` of a node: concatenation of all descendant
text nodes. -/
def textContent : XmlNode → String
  | .text s => s
  | .elem _ _ children => textContentList children

/-- Concatenated `textContent` of a node list. -/
def textContentList : List XmlNode → String
  | [] => ""
  | n :: rest => textContent n ++ textContentList rest

end

/-- `getAttribute` on an element (`none` when absent, as DOM `null`). -/
def getAttribute (n : XmlNode) (name : String) : Option String :=
  match n with
  | .elem _ attrs _ => (attrs.find? (fun a => a.1 = name)).map (fun a => a.2)
  | .text _ => none

/- ===== FDX export (exportFdx.ts) ===== -/

/-- The kind-name mapping `ELEMENT_TO_FDX_TYPE`. -/
def ELEMENT_TO_FDX_TYPE : ElementType → String
  | .sceneHeading => "Scene Heading"
  | .action => "Action"
  | .character => "Character"
  | .dialogue => "Dialogue"
  | .parenthetical => "Parenthetical"
  | .transition => "Transition"

/-- XML escaping of `& < > " '` (`escapeXml`).  The source applies five
sequential global replaces with the ampersand pass first; since no
replacement string contains a character a later pass rewrites, that
equals this single character-wise map. -/
def escapeXml (text : String) : String :=
  String.join (text.data.map fun c =>
    if c = '&' then "&amp;"
    else if c = '<' then "&lt;"
    else if c = '>' then "&gt;"
    else if c = '"' then "&quot;"
    else if c = Char.ofNat 39 then "&apos;"
    else String.mk [c])

/-- JS `a || b` for strings: `a` unless it is empty. -/
def jsOrStr (a b : String) : String := if a = "" then b else a

/-- JS `a || b` where `a` is an optional string (absent and empty are
both falsy). -/
def jsOrOpt (a : Option String) (b : String) : String :=
  match a with
  | some s => if s = "" then b else s
  | none => b

/-- Truthiness of `screenplay.titlePage?.f` for an optional field `f`. -/
def optField (tp : Option TitlePage) (f : TitlePage → Option String) : Option String :=
  match tp with
  | some t =>
    match f t with
    | some s => if s = "" then none else some s
    | none => none
  | none => none

/-- A center-aligned FDX paragraph wrapping one text run. -/
def centerPara (content : String) : List String :=
  ["      <Paragraph Alignment=\"Center\">",
   "        <Text>" ++ content ++ "</Text>",
   "      </Paragraph>"]

/-- A left-aligned FDX paragraph wrapping one text run. -/
def leftPara (content : String) : List String :=
  ["      <Paragraph Alignment=\"Left\">",
   "        <Text>" ++ content ++ "</Text>",
   "      </Paragraph>"]

/-- The FDX generator `generateFdx`: XML declaration, root, optional
title page block (emitted whenever a title page exists or the title is
non-empty), then one typed paragraph per element, all joined with
newlines. -/
def generateFdx (screenplay : Screenplay) : String :=
  let titlePageLines : List String :=
    if screenplay.titlePage.isSome ∨ screenplay.title ≠ "" then
      let title :=
        match screenplay.titlePage with
        | some tp => jsOrStr tp.title screenplay.title
        | none => screenplay.title
      let titleLines :=
        if title ≠ "" then
          centerPara (escapeXml (String.mk (jsToUpper title.data))) ++ centerPara ""
        else []
      let writtenBy :=
        match screenplay.titlePage with
        | some tp => jsOrStr tp.writtenBy "Written by"
        | none => "Written by"
      let author :=
        match screenplay.titlePage with
        | some tp => jsOrStr tp.author screenplay.author
        | none => screenplay.author
      let authorLines := if author ≠ "" then centerPara (escapeXml author) else []
      let basedOnLines :=
        match optField screenplay.titlePage (fun t => t.basedOn) with
        | some basedOn => centerPara "" ++ centerPara (escapeXml basedOn)
        | none => []
      let draftDateLines :=
        match optField screenplay.titlePage (fun t => t.draftDate) with
        | some draftDate => centerPara "" ++ centerPara (escapeXml draftDate)
        | none => []
      let contactLines :=
        match optField screenplay.titlePage (fun t => t.contactInfo) with
        | some contactInfo => leftPara (escapeXml contactInfo)
        | none => []
      let copyrightLines :=
        match optField screenplay.titlePage (fun t => t.copyright) with
        | some copyright => leftPara (escapeXml copyright)
        | none => []
      ["  <TitlePage>", "    <Content>"]
        ++ titleLines ++ centerPara (escapeXml writtenBy) ++ authorLines
        ++ basedOnLines ++ draftDateLines ++ contactLines ++ copyrightLines
        ++ ["    </Content>", "  </TitlePage>"]
    else []
  let contentLines : List String :=
    screenplay.elements.flatMap fun element =>
      ["    <Paragraph Type=\"" ++ ELEMENT_TO_FDX_TYPE element.type ++ "\">",
       "      <Text>" ++ escapeXml element.content ++ "</Text>",
       "    </Paragraph>"]
  String.intercalate "\n"
    (["<?xml version=\"1.0\" encoding=\"UTF-8\"?>",
      "<FinalDraft DocumentType=\"Script\" Template=\"No\" Version=\"1\">"]
      ++ titlePageLines
      ++ ["  <Content>"] ++ contentLines
      ++ ["  </Content>", "</FinalDraft>"])

/- ===== FDX import (importFdx.ts) ===== -/

/-- The paragraph-type mapping `FDX_TYPE_MAP`, including the two extra
aliases. -/
def FDX_TYPE_MAP : List (String × ElementType) :=
  [("Scene Heading", .sceneHeading), ("Action", .action),
   ("Character", .character), ("Dialogue", .dialogue),
   ("Parenthetical", .parenthetical), ("Transition", .transition),
   ("General", .action), ("Shot", .sceneHeading)]

/-- Best-effort title-page data extracted by `extractTitlePage`. -/
structure FdxTitlePage where
  title : Option String := none
  author : Option String := none
  contact : Option String := none
  copyright : Option String := none
deriving DecidableEq, Repr

/-- The import's `getTextContent`: concatenate the `Text` descendants,
falling back to the node's own text content when there are none. -/
def getTextContent (element : XmlNode) : String :=
  let textElements := querySelectorAll element "Text"
  if textElements.isEmpty then textContent element
  else String.join (textElements.map textContent)

/-- JS `String.prototype.includes` lifted to `String`. -/
def containsStr (s sub : String) : Bool := containsChars s.data sub.data

/-- The import's `extractTitlePage`: scan the title page's paragraphs
for a plausible title (first sub-100-character paragraph that does not
mention "by"), falling back to a `HeaderAndFooter Header` element.  The
author field is never populated (the source's branch is empty). -/
def extractTitlePage (doc : XmlNode) : FdxTitlePage :=
  let result : FdxTitlePage :=
    match querySelector doc "TitlePage" with
    | some titlePage =>
      (querySelectorAllDesc titlePage "Content" "Paragraph").foldl
        (fun r p =>
          let text := getTextContent p
          if text ≠ "" then
            let lowerText := String.mk (jsToLower text.data)
            if r.title = none ∧ ¬ (containsStr lowerText "written by")
                ∧ ¬ (containsStr lowerText "by") then
              if text.length < 100 then { r with title := some text } else r
            else r
          else r)
        {}
    | none => {}
  match (querySelectorAllDesc doc "HeaderAndFooter" "Header").head? with
  | some header =>
    if result.title = none then
      let text := getTextContent header
      if text ≠ "" ∧ text.length < 100 then { result with title := some text }
      else result
    else result
  | none => result

/-- The import's `parseParagraph`, with the element's fresh
`generateId()` abstracted away: returns the kind and content text, or
`none` for a dropped paragraph. -/
def parseParagraph (paragraph : XmlNode) : Option (ElementType × String) :=
  let typeAttr := (getAttribute paragraph "Type").getD ""
  match (FDX_TYPE_MAP.find? (fun m => m.1 = typeAttr)).map (fun m => m.2) with
  | none =>
    let text := getTextContent paragraph
    if ¬ isBlank text then some (.action, text) else none
  | some elementType =>
    let text := getTextContent paragraph
    if isBlank text ∧ elementType ≠ .sceneHeading then none
    else some (elementType, text)

/-- The import's `extractElements`: the paragraphs under the first
`Content` element in document order (or all paragraphs when there is
none), parsed and filtered. -/
def extractElements (doc : XmlNode) : List (ElementType × String) :=
  match querySelector doc "Content" with
  | none => ((preorderNode doc).filter (isElemNamed "Paragraph")).filterMap parseParagraph
  | some content => (directChildrenNamed content "Paragraph").filterMap parseParagraph

/-- The import's `parseFdx`: fail on ill-formed XML, otherwise build a
fresh screenplay with the extracted title and elements.  Freshly
generated element ids are modelled positionally. -/
def parseFdx (xmlContent : String) : Except String Screenplay :=
  match xmlParse xmlContent with
  | none => Except.error "Invalid FDX file"
  | some doc =>
    let titlePage := extractTitlePage doc
    let parsed := extractElements doc
    let elements : List ScriptElement :=
      parsed.enum.map fun p => ⟨p.1, p.2.1, p.2.2⟩
    let screenplay :=
      createEmptyScreenplay (jsOrOpt titlePage.title "Imported Screenplay")
        (jsOrOpt titlePage.author "") 0 1
    let screenplay :=
      if elements.length > 0 then { screenplay with elements := elements }
      else screenplay
    Except.ok screenplay

/-- The import's `loadFdxFile` applied to file content: the `catch`
around `parseFdx` resolves to `null` on failure. -/
def loadFdxFile (content : String) : Option Screenplay :=
  (parseFdx content).toOption

/-- The toolbar's `handleImportFdx` (src component): on a successful
FDX import replace the document and rebuild the derived indices; on a
failed one, do nothing. -/
def handleImportFdx (st : DocumentState) (content : String) : DocumentState :=
  match loadFdxFile content with
  | none => st
  | some imported =>
    recalculateLocations (recalculateCharacters (recalculateScenes
      (setScreenplay st imported)))

/-- The per-element observable data of a screenplay compared by the
round-trip claim: kind tag and content text, in order. -/
def elementData (sp : Screenplay) : List (ElementType × String) :=
  sp.elements.map fun e => (e.type, e.content)

/-- Concrete screenplay for the round-trip failure: title "A", one
action element "Hello", no title page, no formatting. -/
def c9Screenplay : Screenplay :=
  { id := 0
    title := "A"
    author := ""
    titlePage := none
    elements := [⟨1, .action, "Hello"⟩]
    characters := []
    locations := [] }

/- ================= Lemmas ================= -/

/-- Reading off the Scenes rebuild after `recalculateScenes`. -/
@[simp] theorem recalculateScenes_scenes (st : DocumentState) :
    (recalculateScenes st).scenes = buildScenes st.screenplay.elements := rfl

@[simp] theorem recalculateScenes_screenplay (st : DocumentState) :
    (recalculateScenes st).screenplay = st.screenplay := rfl

@[simp] theorem recalculateLocations_locations (st : DocumentState) :
    (recalculateLocations st).screenplay.locations
      = buildLocations st.screenplay.elements := rfl

@[simp] theorem recalculateLocations_elements (st : DocumentState) :
    (recalculateLocations st).screenplay.elements = st.screenplay.elements := rfl

@[simp] theorem recalculateLocations_scenes (st : DocumentState) :
    (recalculateLocations st).scenes = st.scenes := rfl

@[simp] theorem recalculateCharacters_elements (st : DocumentState) :
    (recalculateCharacters st).screenplay.elements = st.screenplay.elements := rfl

@[simp] theorem recalculateCharacters_scenes (st : DocumentState) :
    (recalculateCharacters st).scenes = st.scenes := rfl

@[simp] theorem recalculateCharacters_locations (st : DocumentState) :
    (recalculateCharacters st).screenplay.locations
      = st.screenplay.locations := rfl

/-- An element that is not a scene-heading never qualifies for the
Scenes/Locations passes. -/
theorem qualHeading_false_of_type_ne {e : ScriptElement}
    (h : e.type ≠ .sceneHeading) : qualHeading e = false := by
  simp [qualHeading, h]

/-- An element with empty content never qualifies for the
Scenes/Locations passes. -/
theorem qualHeading_false_of_empty {e : ScriptElement}
    (h : e.content = "") : qualHeading e = false := by
  have hb : isBlank e.content = true := by rw [h]; rfl
  simp [qualHeading, hb]

/-- Replacing a non-qualifying element by a non-qualifying element does
not change a skip-fold. -/
theorem foldSkip_set {β : Type} (qual : ScriptElement → Bool)
    (f : β → ScriptElement → β) :
    ∀ (l : List ScriptElement) (i : Nat) (old new : ScriptElement) (init : β),
      l[i]? = some old → qual old = false → qual new = false →
      foldSkip qual f init (l.set i new) = foldSkip qual f init l := by
  intro l
  induction l with
  | nil => intro i old new init h ho hn; simp at h
  | cons a rest ih =>
    intro i old new init h ho hn
    cases i with
    | zero =>
      simp only [List.getElem?_cons_zero, Option.some.injEq] at h
      subst h
      simp [foldSkip, ho, hn]
    | succ j =>
      simp only [List.getElem?_cons_succ] at h
      simp only [List.set_cons_succ, foldSkip]
      exact ih j old new _ h ho hn

/-- Inserting a non-qualifying element anywhere does not change a
skip-fold. -/
theorem foldSkip_spliceInsert {β : Type} (qual : ScriptElement → Bool)
    (f : β → ScriptElement → β) {e : ScriptElement} (he : qual e = false) :
    ∀ (l : List ScriptElement) (i : Nat) (init : β),
      foldSkip qual f init (spliceInsert l i e) = foldSkip qual f init l := by
  intro l
  induction l with
  | nil => intro i init; simp [spliceInsert, foldSkip, he]
  | cons a rest ih =>
    intro i init
    cases i with
    | zero => simp [spliceInsert, foldSkip, he]
    | succ j =>
      simp only [spliceInsert, List.take_succ_cons, List.drop_succ_cons,
        List.cons_append, foldSkip]
      exact ih j _

/-- Deleting a non-qualifying element does not change a skip-fold. -/
theorem foldSkip_eraseIdx {β : Type} (qual : ScriptElement → Bool)
    (f : β → ScriptElement → β) :
    ∀ (l : List ScriptElement) (i : Nat) (d : ScriptElement) (init : β),
      l[i]? = some d → qual d = false →
      foldSkip qual f init (l.eraseIdx i) = foldSkip qual f init l := by
  intro l
  induction l with
  | nil => intro i d init h hd; simp at h
  | cons a rest ih =>
    intro i d init h hd
    cases i with
    | zero =>
      simp only [List.getElem?_cons_zero, Option.some.injEq] at h
      subst h
      simp [List.eraseIdx, foldSkip, hd]
    | succ j =>
      simp only [List.getElem?_cons_succ] at h
      simp only [List.eraseIdx, foldSkip]
      exact ih j d _ h hd

/-- Scenes rebuild is unchanged by replacing a non-qualifying element
with a non-qualifying one. -/
theorem buildScenes_set {l : List ScriptElement} {i : Nat}
    {old new : ScriptElement} (h : l[i]? = some old)
    (ho : qualHeading old = false) (hn : qualHeading new = false) :
    buildScenes (l.set i new) = buildScenes l := by
  unfold buildScenes
  rw [foldSkip_set _ _ l i old new _ h ho hn]

/-- Locations rebuild is unchanged by replacing a non-qualifying element
with a non-qualifying one. -/
theorem buildLocations_set {l : List ScriptElement} {i : Nat}
    {old new : ScriptElement} (h : l[i]? = some old)
    (ho : qualHeading old = false) (hn : qualHeading new = false) :
    buildLocations (l.set i new) = buildLocations l := by
  unfold buildLocations
  rw [foldSkip_set _ _ l i old new _ h ho hn]

/-- Scenes rebuild is unchanged by inserting a non-qualifying element. -/
theorem buildScenes_spliceInsert {l : List ScriptElement} {i : Nat}
    {e : ScriptElement} (he : qualHeading e = false) :
    buildScenes (spliceInsert l i e) = buildScenes l := by
  unfold buildScenes
  rw [foldSkip_spliceInsert _ _ he]

/-- Locations rebuild is unchanged by inserting a non-qualifying element. -/
theorem buildLocations_spliceInsert {l : List ScriptElement} {i : Nat}
    {e : ScriptElement} (he : qualHeading e = false) :
    buildLocations (spliceInsert l i e) = buildLocations l := by
  unfold buildLocations
  rw [foldSkip_spliceInsert _ _ he]

/-- Scenes rebuild is unchanged by deleting a non-qualifying element. -/
theorem buildScenes_eraseIdx {l : List ScriptElement} {i : Nat}
    {d : ScriptElement} (h : l[i]? = some d)
    (hd : qualHeading d = false) :
    buildScenes (l.eraseIdx i) = buildScenes l := by
  unfold buildScenes
  rw [foldSkip_eraseIdx _ _ l i d _ h hd]

/-- Locations rebuild is unchanged by deleting a non-qualifying element. -/
theorem buildLocations_eraseIdx {l : List ScriptElement} {i : Nat}
    {d : ScriptElement} (h : l[i]? = some d)
    (hd : qualHeading d = false) :
    buildLocations (l.eraseIdx i) = buildLocations l := by
  unfold buildLocations
  rw [foldSkip_eraseIdx _ _ l i d _ h hd]

/-- `updateElement` preserves Scenes/Locations consistency. -/
theorem derivedConsistent_updateElement (st : DocumentState) (index : Nat)
    (content : String) (h : derivedConsistent st) :
    derivedConsistent (updateElement st index content) := by
  unfold updateElement
  cases hx : st.screenplay.elements[index]? with
  | none => exact h
  | some old =>
    dsimp only
    by_cases hSH : old.type = .sceneHeading
    · rw [if_pos hSH]
      exact ⟨rfl, rfl⟩
    · have ho : qualHeading old = false := qualHeading_false_of_type_ne hSH
      have hn : qualHeading { old with content := content } = false :=
        qualHeading_false_of_type_ne hSH
      rw [if_neg hSH]
      by_cases hCH : old.type = .character
      · rw [if_pos hCH]
        refine ⟨?_, ?_⟩
        · show st.scenes
            = buildScenes (st.screenplay.elements.set index { old with content := content })
          rw [buildScenes_set hx ho hn]; exact h.1
        · show st.screenplay.locations
            = buildLocations (st.screenplay.elements.set index { old with content := content })
          rw [buildLocations_set hx ho hn]; exact h.2
      · rw [if_neg hCH]
        refine ⟨?_, ?_⟩
        · show st.scenes
            = buildScenes (st.screenplay.elements.set index { old with content := content })
          rw [buildScenes_set hx ho hn]; exact h.1
        · show st.screenplay.locations
            = buildLocations (st.screenplay.elements.set index { old with content := content })
          rw [buildLocations_set hx ho hn]; exact h.2

/-- `updateElementType` preserves Scenes/Locations consistency. -/
theorem derivedConsistent_updateElementType (st : DocumentState) (index : Nat)
    (type : ElementType) (h : derivedConsistent st) :
    derivedConsistent (updateElementType st index type) := by
  unfold updateElementType
  cases hx : st.screenplay.elements[index]? with
  | none => exact h
  | some old =>
    dsimp only
    by_cases hSH : old.type = .sceneHeading ∨ type = .sceneHeading
    · rw [if_pos hSH]
      by_cases hCH : old.type = .character ∨ type = .character
      · rw [if_pos hCH]
        exact ⟨rfl, rfl⟩
      · rw [if_neg hCH]
        exact ⟨rfl, rfl⟩
    · push_neg at hSH
      have ho : qualHeading old = false := qualHeading_false_of_type_ne hSH.1
      have hn : qualHeading { old with type := type } = false :=
        qualHeading_false_of_type_ne hSH.2
      have hSH2 : ¬ (old.type = .sceneHeading ∨ type = .sceneHeading) := by
        simp [hSH.1, hSH.2]
      rw [if_neg hSH2]
      by_cases hCH : old.type = .character ∨ type = .character
      · rw [if_pos hCH]
        refine ⟨?_, ?_⟩
        · show st.scenes
            = buildScenes (st.screenplay.elements.set index { old with type := type })
          rw [buildScenes_set hx ho hn]; exact h.1
        · show st.screenplay.locations
            = buildLocations (st.screenplay.elements.set index { old with type := type })
          rw [buildLocations_set hx ho hn]; exact h.2
      · rw [if_neg hCH]
        refine ⟨?_, ?_⟩
        · show st.scenes
            = buildScenes (st.screenplay.elements.set index { old with type := type })
          rw [buildScenes_set hx ho hn]; exact h.1
        · show st.screenplay.locations
            = buildLocations (st.screenplay.elements.set index { old with type := type })
          rw [buildLocations_set hx ho hn]; exact h.2

/-- `insertElementAfter` preserves Scenes/Locations consistency: the
inserted element is empty, so neither rebuild changes; when a
scene-heading is inserted the Scenes rebuild is additionally rerun. -/
theorem derivedConsistent_insertElementAfter (st : DocumentState) (index : Nat)
    (type : ElementType) (h : derivedConsistent st) :
    derivedConsistent (insertElementAfter st index type) := by
  unfold insertElementAfter
  have he : qualHeading (createEmptyElement type st.nextId) = false :=
    qualHeading_false_of_empty rfl
  by_cases hSH : type = .sceneHeading
  · rw [if_pos hSH]
    refine ⟨rfl, ?_⟩
    show st.screenplay.locations
      = buildLocations (spliceInsert st.screenplay.elements (index + 1)
          (createEmptyElement type st.nextId))
    rw [buildLocations_spliceInsert he]; exact h.2
  · rw [if_neg hSH]
    refine ⟨?_, ?_⟩
    · show st.scenes
        = buildScenes (spliceInsert st.screenplay.elements (index + 1)
            (createEmptyElement type st.nextId))
      rw [buildScenes_spliceInsert he]; exact h.1
    · show st.screenplay.locations
        = buildLocations (spliceInsert st.screenplay.elements (index + 1)
            (createEmptyElement type st.nextId))
      rw [buildLocations_spliceInsert he]; exact h.2

/-- `deleteElement` preserves Scenes/Locations consistency. -/
theorem derivedConsistent_deleteElement (st : DocumentState) (index : Nat)
    (h : derivedConsistent st) :
    derivedConsistent (deleteElement st index) := by
  unfold deleteElement
  by_cases hlen : st.screenplay.elements.length ≤ 1
  · rw [if_pos hlen]; exact h
  · rw [if_neg hlen]
    cases hx : st.screenplay.elements[index]? with
    | none => exact h
    | some deleted =>
      dsimp only
      by_cases hSH : deleted.type = .sceneHeading
      · rw [if_pos hSH]
        exact ⟨rfl, rfl⟩
      · have hd : qualHeading deleted = false := qualHeading_false_of_type_ne hSH
        rw [if_neg hSH]
        by_cases hCH : deleted.type = .character
        · rw [if_pos hCH]
          refine ⟨?_, ?_⟩
          · show st.scenes = buildScenes (st.screenplay.elements.eraseIdx index)
            rw [buildScenes_eraseIdx hx hd]; exact h.1
          · show st.screenplay.locations
              = buildLocations (st.screenplay.elements.eraseIdx index)
            rw [buildLocations_eraseIdx hx hd]; exact h.2
        · rw [if_neg hCH]
          refine ⟨?_, ?_⟩
          · show st.scenes = buildScenes (st.screenplay.elements.eraseIdx index)
            rw [buildScenes_eraseIdx hx hd]; exact h.1
          · show st.screenplay.locations
              = buildLocations (st.screenplay.elements.eraseIdx index)
            rw [buildLocations_eraseIdx hx hd]; exact h.2

/-- `cycleElementType` preserves Scenes/Locations consistency (it
delegates to `updateElementType`). -/
theorem derivedConsistent_cycleElementType (st : DocumentState) (index : Nat)
    (reverse : Bool) (h : derivedConsistent st) :
    derivedConsistent (cycleElementType st index reverse) := by
  unfold cycleElementType
  cases hx : st.screenplay.elements[index]? with
  | none => exact h
  | some element =>
    dsimp only
    cases ELEMENT_CYCLE.findIdx? (fun t => t == element.type) with
    | none => exact derivedConsistent_updateElementType st index .dialogue h
    | some currentTypeIndex =>
      dsimp only
      by_cases hrev : reverse = true
      · rw [if_pos hrev]
        by_cases hd : element.type = .dialogue
        · rw [if_pos hd]
          exact derivedConsistent_updateElementType st index .parenthetical h
        · rw [if_neg hd]
          exact derivedConsistent_updateElementType st index _ h
      · rw [if_neg hrev]
        exact derivedConsistent_updateElementType st index _ h

/-- Focus and elements are untouched by the recalculation passes. -/
@[simp] theorem recalculateScenes_currentElementIndex (st : DocumentState) :
    (recalculateScenes st).currentElementIndex = st.currentElementIndex := rfl

@[simp] theorem recalculateLocations_currentElementIndex (st : DocumentState) :
    (recalculateLocations st).currentElementIndex = st.currentElementIndex := rfl

@[simp] theorem recalculateCharacters_currentElementIndex (st : DocumentState) :
    (recalculateCharacters st).currentElementIndex = st.currentElementIndex := rfl

/-- Length of a JS splice insertion. -/
theorem length_spliceInsert {α : Type} (l : List α) (i : Nat) (a : α) :
    (spliceInsert l i a).length = l.length + 1 := by
  simp [spliceInsert]
  omega

/-- Reading back the element just written by `List.set`. -/
theorem getElem?_set_of_some {α : Type} {l : List α} {i : Nat} {x a : α}
    (h : l[i]? = some x) : (l.set i a)[i]? = some a := by
  rw [List.getElem?_set_self', h]
  rfl

/-- `updateElement` preserves the element count. -/
theorem length_updateElement (st : DocumentState) (index : Nat)
    (content : String) :
    (updateElement st index content).screenplay.elements.length
      = st.screenplay.elements.length := by
  unfold updateElement
  cases hx : st.screenplay.elements[index]? with
  | none => rfl
  | some old =>
    dsimp only
    by_cases hSH : old.type = .sceneHeading
    · rw [if_pos hSH]; simp
    · rw [if_neg hSH]
      by_cases hCH : old.type = .character
      · rw [if_pos hCH]; simp
      · rw [if_neg hCH]; simp

/-- `updateElementType` preserves the element count. -/
theorem length_updateElementType (st : DocumentState) (index : Nat)
    (type : ElementType) :
    (updateElementType st index type).screenplay.elements.length
      = st.screenplay.elements.length := by
  unfold updateElementType
  cases hx : st.screenplay.elements[index]? with
  | none => rfl
  | some old =>
    dsimp only
    by_cases hSH : old.type = .sceneHeading ∨ type = .sceneHeading
    · rw [if_pos hSH]
      by_cases hCH : old.type = .character ∨ type = .character
      · rw [if_pos hCH]; simp
      · rw [if_neg hCH]; simp
    · rw [if_neg hSH]
      by_cases hCH : old.type = .character ∨ type = .character
      · rw [if_pos hCH]; simp
      · rw [if_neg hCH]; simp

/-- `insertElementAfter` adds exactly one element. -/
theorem length_insertElementAfter (st : DocumentState) (index : Nat)
    (type : ElementType) :
    (insertElementAfter st index type).screenplay.elements.length
      = st.screenplay.elements.length + 1 := by
  unfold insertElementAfter
  by_cases hSH : type = .sceneHeading
  · rw [if_pos hSH]; simp [length_spliceInsert]
  · rw [if_neg hSH]; simp [length_spliceInsert]

/-- `deleteElement` keeps the element sequence nonempty. -/
theorem length_deleteElement_pos (st : DocumentState) (index : Nat)
    (h : 0 < st.screenplay.elements.length) :
    0 < (deleteElement st index).screenplay.elements.length := by
  unfold deleteElement
  by_cases hlen : st.screenplay.elements.length ≤ 1
  · rw [if_pos hlen]; exact h
  · rw [if_neg hlen]
    cases hx : st.screenplay.elements[index]? with
    | none => exact h
    | some deleted =>
      dsimp only
      have hi : index < st.screenplay.elements.length :=
        (List.getElem?_eq_some.mp hx).1
      have hlen2 : (st.screenplay.elements.eraseIdx index).length
          = st.screenplay.elements.length - 1 := by
        rw [List.length_eraseIdx]
        simp [hi]
      by_cases hSH : deleted.type = .sceneHeading
      · rw [if_pos hSH]; simp [hlen2]; omega
      · rw [if_neg hSH]
        by_cases hCH : deleted.type = .character
        · rw [if_pos hCH]; simp [hlen2]; omega
        · rw [if_neg hCH]; simp [hlen2]; omega

/-- Under a defined element, `cycleElementType` is `updateElementType`
at the kind computed by `cycleSpec`. -/
theorem cycleElementType_eq_update (st : DocumentState) (index : Nat)
    (reverse : Bool) (e : ScriptElement)
    (hx : st.screenplay.elements[index]? = some e) :
    cycleElementType st index reverse
      = updateElementType st index (cycleSpec e.type reverse) := by
  unfold cycleElementType
  rw [hx]
  rcases e with ⟨id, ty, content⟩
  cases ty <;> cases reverse <;> rfl

/-- `cycleElementType` preserves the element count. -/
theorem length_cycleElementType (st : DocumentState) (index : Nat)
    (reverse : Bool) :
    (cycleElementType st index reverse).screenplay.elements.length
      = st.screenplay.elements.length := by
  cases hx : st.screenplay.elements[index]? with
  | none =>
    unfold cycleElementType
    rw [hx]
  | some e =>
    rw [cycleElementType_eq_update st index reverse e hx]
    exact length_updateElementType st index _

/-- The element written by `updateElementType`. -/
theorem updateElementType_getElem (st : DocumentState) (index : Nat)
    (type : ElementType) (e : ScriptElement)
    (hx : st.screenplay.elements[index]? = some e) :
    (updateElementType st index type).screenplay.elements[index]?
      = some { e with type := type } := by
  unfold updateElementType
  rw [hx]
  dsimp only
  by_cases hSH : e.type = .sceneHeading ∨ type = .sceneHeading
  · rw [if_pos hSH]
    by_cases hCH : e.type = .character ∨ type = .character
    · rw [if_pos hCH]
      exact getElem?_set_of_some hx
    · rw [if_neg hCH]
      exact getElem?_set_of_some hx
  · rw [if_neg hSH]
    by_cases hCH : e.type = .character ∨ type = .character
    · rw [if_pos hCH]
      exact getElem?_set_of_some hx
    · rw [if_neg hCH]
      exact getElem?_set_of_some hx

/-- Every mutation keeps the element sequence nonempty. -/
theorem applyMutation_length_pos (st : DocumentState) (m : Mutation)
    (h : 0 < st.screenplay.elements.length) :
    0 < (applyMutation st m).screenplay.elements.length := by
  cases m with
  | updateContent index content => rw [applyMutation, length_updateElement]; exact h
  | updateType index type => rw [applyMutation, length_updateElementType]; exact h
  | insertAfter index type => rw [applyMutation, length_insertElementAfter]; omega
  | deleteAt index => exact length_deleteElement_pos st index h
  | cycleType index reverse => rw [applyMutation, length_cycleElementType]; exact h

/-- Nonemptiness is preserved along any mutation sequence. -/
theorem foldl_applyMutation_length_pos :
    ∀ (ms : List Mutation) (st : DocumentState),
      0 < st.screenplay.elements.length →
      0 < (ms.foldl applyMutation st).screenplay.elements.length := by
  intro ms
  induction ms with
  | nil => intro st h; exact h
  | cons m rest ih =>
    intro st h
    exact ih _ (applyMutation_length_pos st m h)

/-- The source's nested-if line estimate equals the claim-style additive
formula with the floored content term. -/
theorem elementLinesOf_eq_amended (e : ScriptElement) :
    elementLinesOf e = elementLinesAmended e := by
  rcases e with ⟨id, ty, c⟩
  cases ty <;> simp [elementLinesOf, elementLinesAmended, contentLinesOf]

/-- The editor's enumerated fold equals the recursive claim-style
description of the page-break computation. -/
theorem pageBreaks_fold (es : List ScriptElement) :
    ∀ (k run : Nat) (acc : List Nat),
      (List.foldl
        (fun acc p =>
          let elementLines := elementLinesOf p.2
          let lineCount := acc.2 + elementLines
          if lineCount ≥ LINES_PER_PAGE then (acc.1 ++ [p.1], elementLines)
          else (acc.1, lineCount))
        (acc, run) (es.enumFrom k)).1
      = acc ++ breaksFrom elementLinesAmended k run es := by
  induction es with
  | nil => intro k run acc; simp [breaksFrom]
  | cons e rest ih =>
    intro k run acc
    rw [List.enumFrom_cons, List.foldl_cons]
    dsimp only
    rw [breaksFrom, ← elementLinesOf_eq_amended]
    by_cases hge : run + elementLinesOf e ≥ LINES_PER_PAGE
    · rw [if_pos hge, if_pos hge, ih]
      simp
    · rw [if_neg hge, if_neg hge, ih]

/- ================= Claim theorems ================= -/

/-- C1 (amended): after any sequence of document mutations starting
from a fresh screenplay — and, more generally, after any single
mutation applied to any state whose indices are consistent — the
stored Scenes and Locations collections equal the full rebuilds
computed from the resulting element sequence (Scenes compared up to
the freshly generated opaque per-Scene id, which is omitted from the
model).  The Characters collection is deliberately not included: the
code does not maintain it across dialogue insertions/deletions, see
the counterexample. -/
theorem c1_scenes_locations_consistency :
    derivedConsistent initialState
    ∧ (∀ (st : DocumentState) (m : Mutation),
        derivedConsistent st → derivedConsistent (applyMutation st m))
    ∧ ∀ (ms : List Mutation),
        derivedConsistent (ms.foldl applyMutation initialState) := by
  have hpres : ∀ (st : DocumentState) (m : Mutation),
      derivedConsistent st → derivedConsistent (applyMutation st m) := by
    intro st m h
    cases m with
    | updateContent index content => exact derivedConsistent_updateElement st index content h
    | updateType index type => exact derivedConsistent_updateElementType st index type h
    | insertAfter index type => exact derivedConsistent_insertElementAfter st index type h
    | deleteAt index => exact derivedConsistent_deleteElement st index h
    | cycleType index reverse => exact derivedConsistent_cycleElementType st index reverse h
  have hinit : derivedConsistent initialState := by decide
  refine ⟨hinit, hpres, ?_⟩
  have hfold : ∀ (ms : List Mutation) (st : DocumentState),
      derivedConsistent st → derivedConsistent (ms.foldl applyMutation st) := by
    intro ms
    induction ms with
    | nil => intro st h; exact h
    | cons m rest ih => intro st h; exact ih _ (hpres st m h)
  intro ms
  exact hfold ms initialState hinit

/-- Witness for C1: the preservation clause applied at a concrete
consistent state and mutation. -/
theorem c1_witness :
    derivedConsistent (applyMutation initialState (Mutation.insertAfter 0 .dialogue)) :=
  c1_scenes_locations_consistency.2.1 initialState (Mutation.insertAfter 0 .dialogue)
    (by decide)

/-- Counterexample to C1 as stated: in the reachable state obtained by
retyping the initial element to character, renaming it "ALICE" and then
inserting a dialogue element after it, the stored Characters collection
(ALICE with 0 lines) differs from the from-scratch rebuild of the
resulting element sequence (ALICE with 1 line): `insertElementAfter`
of a dialogue element triggers no Characters recalculation. -/
theorem c1_characters_counterexample :
    staleCharactersState.screenplay.characters
      ≠ buildCharacters staleCharactersState.screenplay.elements
    ∧ staleCharactersState.screenplay.characters = [⟨"ALICE", 0, 0⟩]
    ∧ buildCharacters staleCharactersState.screenplay.elements
      = [⟨"ALICE", 1, 0⟩] := by
  refine ⟨by decide, by decide, by decide⟩

/-- C2: `parseSceneHeading` never fails (it is a total function by
construction); `isInterior` is exactly "the trimmed upper-cased heading
starts with INT" for every input (so INT./EXT. headings are classified
interior); the INT/EXT-family prefix is stripped and the remainder is
scanned for a hyphen-family separator (ASCII hyphen, en dash, em dash)
followed by a fixed-vocabulary time of day, defaulting to DAY —
including the two examples mandated by the claim. -/
theorem c2_parse_scene_heading :
    (∀ heading : String,
        (parseSceneHeading heading).isInterior
          = startsWithChars "INT".data (jsToUpper (jsTrim heading.data)))
    ∧ parseSceneHeading "EXT. PARK - NIGHT"
        = { isInterior := false, location := "PARK", timeOfDay := "NIGHT" }
    ∧ parseSceneHeading "INT. KITCHEN"
        = { isInterior := true, location := "KITCHEN", timeOfDay := "DAY" }
    ∧ (parseSceneHeading "INT./EXT. CAR - NIGHT").isInterior = true
    ∧ parseSceneHeading "INT. LIVING ROOM \u2013 NIGHT"
        = { isInterior := true, location := "LIVING ROOM", timeOfDay := "NIGHT" }
    ∧ parseSceneHeading "EXT. BEACH \u2014 DUSK"
        = { isInterior := false, location := "BEACH", timeOfDay := "DUSK" }
    ∧ parseSceneHeading "INT. OFFICE - MOMENTS LATER"
        = { isInterior := true, location := "OFFICE", timeOfDay := "MOMENTS LATER" }
    ∧ parseSceneHeading "EXT. ALLEY"
        = { isInterior := false, location := "ALLEY", timeOfDay := "DAY" } := by
  refine ⟨?_, by decide, by decide, by decide, by decide, by decide, by decide,
    by decide⟩
  intro heading
  simp only [parseSceneHeading]
  cases timeSplit (stripIntExt (jsToUpper (jsTrim heading.data))) with
  | none => rfl
  | some pw => cases pw; rfl

/-- C3: deleting the sole remaining element is a silent no-op (the
entire state is unchanged), and any sequence of mutation operations
applied to a freshly created screenplay leaves at least one element. -/
theorem c3_never_empty :
    (∀ (st : DocumentState) (index : Nat),
        st.screenplay.elements.length = 1 → deleteElement st index = st)
    ∧ ∀ (ms : List Mutation),
        (ms.foldl applyMutation initialState).screenplay.elements ≠ [] := by
  constructor
  · intro st index h
    unfold deleteElement
    rw [if_pos (by omega)]
  · intro ms
    have h := foldl_applyMutation_length_pos ms initialState (by decide)
    exact List.ne_nil_of_length_pos h

/-- Witness for C3: the sole-element clause applied to the fresh
initial state. -/
theorem c3_witness : deleteElement initialState 0 = initialState :=
  c3_never_empty.1 initialState 0 (by decide)

/-- C4: `cycleElementType` sends the element's kind along the fixed
cycle (scene-heading → action → character → dialogue → transition →
scene-heading), backwards when `reverse` is set, except that dialogue
reverse-cycles to parenthetical and parenthetical cycles to dialogue in
either direction; the content is always preserved. -/
theorem c4_cycle_type (st : DocumentState) (index : Nat) (reverse : Bool)
    (e : ScriptElement) (hx : st.screenplay.elements[index]? = some e) :
    ∃ e2 : ScriptElement,
      (cycleElementType st index reverse).screenplay.elements[index]? = some e2
      ∧ e2.type = cycleSpec e.type reverse ∧ e2.content = e.content := by
  rw [cycleElementType_eq_update st index reverse e hx]
  exact ⟨{ e with type := cycleSpec e.type reverse },
    updateElementType_getElem st index _ e hx, rfl, rfl⟩

/-- Witness for C4: reverse-cycling the fresh scene-heading element. -/
theorem c4_witness :
    ∃ e2 : ScriptElement,
      (cycleElementType initialState 0 true).screenplay.elements[0]? = some e2
      ∧ e2.type = cycleSpec ElementType.sceneHeading true ∧ e2.content = "" :=
  c4_cycle_type initialState 0 true ⟨1, .sceneHeading, ""⟩ (by rfl)

/-- C5: the Characters rebuild attributes each dialogue line to the
nearest preceding character element; the claimed four-element example
yields ALICE and BOB with one line each and first appearances 0 and 2;
a scene-heading between character and dialogue blocks attribution,
while an action element does not. -/
theorem c5_characters_rebuild :
    buildCharacters
        [⟨0, .character, "ALICE"⟩, ⟨1, .dialogue, "Hi there."⟩,
         ⟨2, .character, "BOB"⟩, ⟨3, .dialogue, "Hello."⟩]
      = [⟨"ALICE", 1, 0⟩, ⟨"BOB", 1, 2⟩]
    ∧ buildCharacters
        [⟨0, .character, "ALICE"⟩, ⟨1, .sceneHeading, "INT. X"⟩,
         ⟨2, .dialogue, "Hi."⟩]
      = [⟨"ALICE", 0, 0⟩]
    ∧ buildCharacters
        [⟨0, .character, "ALICE"⟩, ⟨1, .action, "She waves."⟩,
         ⟨2, .dialogue, "Hi."⟩]
      = [⟨"ALICE", 1, 0⟩] := by
  refine ⟨by decide, by decide, by decide⟩

/-- C6 (amended): the coarse estimator computes each element's occupied
lines as `max 1 (ceil(len/60))` — the claim omitted the floor at one
line — plus the +1 bonuses for scene-heading/action and for character,
accumulates a running total, records a break whenever the total reaches
the 55-line threshold, and resets the counter to the breaking element's
own estimate: the fold in the code equals the claim-style recursive
description for every element sequence. -/
theorem c6_page_breaks (elements : List ScriptElement) :
    pageBreaks elements = pageBreaksAmended elements := by
  unfold pageBreaks pageBreaksAmended
  have h := pageBreaks_fold elements 0 0 []
  simpa using h

/-- Counterexample to C6 as stated: on 28 empty action elements the
code (which floors each content estimate at one line) breaks at index
27, while the claim's un-floored `ceil(0/60) = 0` formula never reaches
the threshold. -/
theorem c6_counterexample :
    pageBreaks emptyActions = [27]
    ∧ pageBreaksClaimed emptyActions = []
    ∧ pageBreaks emptyActions ≠ pageBreaksClaimed emptyActions := by
  refine ⟨by decide, by decide, by decide⟩

/-- C7 (amended): in the export renderer the space before a non-first
element is exactly one blank line (`LINE_HEIGHT`) for scene-heading,
action, character and transition elements — scene-heading gets the
same single line, not two — zero for dialogue and parenthetical, and
zero for the first element on a page. -/
theorem c7_space_before :
    getSpaceBefore (elementTypeName .sceneHeading) false = LINE_HEIGHT
    ∧ getSpaceBefore (elementTypeName .action) false = LINE_HEIGHT
    ∧ getSpaceBefore (elementTypeName .character) false = LINE_HEIGHT
    ∧ getSpaceBefore (elementTypeName .transition) false = LINE_HEIGHT
    ∧ getSpaceBefore (elementTypeName .dialogue) false = 0
    ∧ getSpaceBefore (elementTypeName .parenthetical) false = 0
    ∧ ∀ type : String, getSpaceBefore type true = 0 := by
  refine ⟨by decide, by decide, by decide, by decide, by decide, by decide, ?_⟩
  intro type
  rfl

/-- Counterexample to C7 as stated: the export renderer gives a
non-first scene-heading `LINE_HEIGHT` (one blank line), not the two
blank lines the claim asserts — the same lead as an action element. -/
theorem c7_counterexample :
    getSpaceBefore (elementTypeName .sceneHeading) false = LINE_HEIGHT
    ∧ getSpaceBefore (elementTypeName .sceneHeading) false ≠ 2 * LINE_HEIGHT
    ∧ getSpaceBefore (elementTypeName .sceneHeading) false
        = getSpaceBefore (elementTypeName .action) false := by
  refine ⟨by decide, by decide, by decide⟩

/-- C8 (amended): deleting a valid, non-sole index removes exactly that
element (all others keep their order), and the focus index stays in
bounds; it moves left by one exactly when the deleted index was
strictly before the focus or the focus sat at the last position — when
the deleted element is the focused one (not at the last position) the
focus index is unchanged, now denoting the following element. -/
theorem c8_delete_behavior (st : DocumentState) (index : Nat)
    (h2 : 2 ≤ st.screenplay.elements.length)
    (hi : index < st.screenplay.elements.length)
    (hc : st.currentElementIndex < st.screenplay.elements.length) :
    (deleteElement st index).screenplay.elements
      = st.screenplay.elements.take index ++ st.screenplay.elements.drop (index + 1)
    ∧ (deleteElement st index).currentElementIndex
      = (if index < st.currentElementIndex
            ∨ st.currentElementIndex = st.screenplay.elements.length - 1
         then st.currentElementIndex - 1 else st.currentElementIndex)
    ∧ (deleteElement st index).currentElementIndex
        < (deleteElement st index).screenplay.elements.length := by
  have hx : st.screenplay.elements[index]? = some st.screenplay.elements[index] :=
    List.getElem?_eq_getElem hi
  have hel : (deleteElement st index).screenplay.elements
      = st.screenplay.elements.eraseIdx index := by
    unfold deleteElement
    rw [if_neg (by omega), hx]
    dsimp only
    split
    · rfl
    · split
      · rfl
      · rfl
  have hlen : (st.screenplay.elements.eraseIdx index).length
      = st.screenplay.elements.length - 1 := by
    rw [List.length_eraseIdx]
    simp [hi]
  have hfoc : (deleteElement st index).currentElementIndex
      = (if st.currentElementIndex ≥ (st.screenplay.elements.eraseIdx index).length
         then (st.screenplay.elements.eraseIdx index).length - 1
         else if st.currentElementIndex > index then st.currentElementIndex - 1
         else st.currentElementIndex) := by
    unfold deleteElement
    rw [if_neg (by omega), hx]
    dsimp only
    split
    · rfl
    · split
      · rfl
      · rfl
  refine ⟨?_, ?_, ?_⟩
  · rw [hel, List.eraseIdx_eq_take_drop_succ]
  · rw [hfoc, hlen]
    split_ifs <;> omega
  · rw [hfoc, hel, hlen]
    split_ifs <;> omega

/-- Witness for C8: deleting the middle element of a three-element
document with the focus on it. -/
theorem c8_witness :
    (deleteElement focusMidState 1).screenplay.elements
      = focusMidState.screenplay.elements.take 1
        ++ focusMidState.screenplay.elements.drop 2
    ∧ (deleteElement focusMidState 1).currentElementIndex
      = (if 1 < focusMidState.currentElementIndex
            ∨ focusMidState.currentElementIndex
              = focusMidState.screenplay.elements.length - 1
         then focusMidState.currentElementIndex - 1
         else focusMidState.currentElementIndex)
    ∧ (deleteElement focusMidState 1).currentElementIndex
        < (deleteElement focusMidState 1).screenplay.elements.length :=
  c8_delete_behavior focusMidState 1 (by decide) (by decide) (by decide)

/-- Counterexample to C8 as stated: in the three-element state with the
focus at index 1, deleting index 1 (at, not before, the focus) leaves
the focus at 1; the claim's "at or before the focus → shift left by
one" would demand 0. -/
theorem c8_counterexample :
    focusMidState.currentElementIndex = 1
    ∧ focusMidState.screenplay.elements.length = 3
    ∧ (deleteElement focusMidState 1).currentElementIndex = 1
    ∧ (deleteElement focusMidState 1).currentElementIndex
        ≠ focusMidState.currentElementIndex - 1 := by
  refine ⟨by decide, by decide, by decide, by decide⟩

set_option maxRecDepth 1000000 in
/-- C9 (code bug): encode→decode loses the script content whenever a
title is present.  `generateFdx` emits the TitlePage block (with its
own Content element) before the script Content block, and `parseFdx`'s
`querySelector('Content')` picks the first Content in document order —
the title page's — so its paragraphs (which have no Type attribute)
are decoded as action elements and the real script elements are
dropped.  Concretely: the screenplay titled "A" with the single action
element "Hello" decodes to [action "A", action "Written by"]. -/
theorem c9_round_trip_failure :
    elementData c9Screenplay = [(.action, "Hello")]
    ∧ (loadFdxFile (generateFdx c9Screenplay)).map elementData
        = some [(.action, "A"), (.action, "Written by")]
    ∧ (loadFdxFile (generateFdx c9Screenplay)).map elementData
        ≠ some (elementData c9Screenplay) := by
  refine ⟨rfl, by rfl, by decide⟩

/-- C10: decoding any input our XML-parser model rejects fails with the
structural "Invalid FDX file" error and produces no Screenplay
(`loadFdxFile` yields `none`), and the import flow leaves any existing
document state completely unchanged. -/
theorem c10_decode_failure (st : DocumentState) (s : String)
    (h : xmlParse s = none) :
    parseFdx s = Except.error "Invalid FDX file"
    ∧ loadFdxFile s = none
    ∧ handleImportFdx st s = st := by
  have hp : parseFdx s = Except.error "Invalid FDX file" := by
    unfold parseFdx
    rw [h]
  have hl : loadFdxFile s = none := by
    unfold loadFdxFile
    rw [hp]
    rfl
  refine ⟨hp, hl, ?_⟩
  unfold handleImportFdx
  rw [hl]

/-- Witness for C10: the decode failure on a plain non-XML string. -/
theorem c10_witness :
    parseFdx "not xml" = Except.error "Invalid FDX file"
    ∧ loadFdxFile "not xml" = none
    ∧ handleImportFdx initialState "not xml" = initialState :=
  c10_decode_failure initialState "not xml" (by rfl)

end Slugline
